import Mathlib

/-!
Verification of the PL011 UART driver of the ironkernel repository
(src/arch/arm/drivers/pl011_uart.rs, with the peripheral clock constant
from src/arch/arm/drivers/arm926ej_s.rs and the sibling writeBuf loops
from arm926ej_s.rs and primecell_uart.rs).

The driver state is embedded shallowly: the four logical fields of the
`PL011` struct (`rate`, `buffer`, `buf_head`, `buf_count`) become a Lean
structure; the memory-mapped register writes performed by `io::wh` /
`io::ws` are hardware side effects with no feedback into this state and
are not tracked, except that `write` is modelled by the byte it emits to
the data register.  The source targets 32-bit ARM, so the Rust `uint`
type is 32 bits wide: arithmetic on it wraps modulo 2^32, division by
zero is a runtime failure, and an out-of-range slice index is a runtime
failure.  Runtime failures are modelled by `Option.none`.
-/

set_option maxRecDepth 100000

namespace IronKernel

/-- `UART_BUFF_SZ` in pl011_uart.rs line 13: capacity of the receive ring. -/
def UART_BUFF_SZ : Nat := 1024

/-- `UART_CLK` in arm926ej_s.rs line 314: peripheral clock, 24 MHz. -/
def UART_CLK : Nat := 24000000

/-- Modulus of the 32-bit `uint` type of the ARM926EJ-S target. -/
def U32 : Nat := 4294967296

/-- Modulus of the `u16` type (the integer-divisor register width). -/
def U16 : Nat := 65536

/-- The mutable state of the `PL011` struct (pl011_uart.rs lines 17-33).
`base`, `IRQ` and `receiver` are immutable configuration that never feeds
back into this logic and are omitted. -/
structure PL011 where
  rate : Nat
  buffer : List Nat
  buf_head : Nat
  buf_count : Nat
deriving DecidableEq

/-- `PL011::new` (pl011_uart.rs lines 190-202): rate 0, zeroed buffer,
head and count 0. -/
def PL011.new : PL011 :=
  { rate := 0
    buffer := List.replicate UART_BUFF_SZ 0
    buf_head := 0
    buf_count := 0 }

/-- The baud-divisor computation of `PL011::open` (pl011_uart.rs lines
43-48).  `int_divisor = (UART_CLK / (16 * rate as uint)) as u16` and
`temp = (8 * (UART_CLK % (16 * rate as uint))) / (rate as uint)`,
`f_divisor = ((temp >> 1) + (temp & 1)) & 0x3F`.  The multiplication
`16 * rate` wraps modulo 2^32; when the wrapped value is 0 the division
is a divide-by-zero runtime failure, modelled as `none`. -/
def baudDivisors (rate : Nat) : Option (Nat × Nat) :=
  let m := (16 * rate) % U32
  if m = 0 then none
  else
    let int_divisor := (UART_CLK / m) % U16
    let temp := (8 * (UART_CLK % m)) % U32 / rate
    let f_divisor := ((temp >>> 1) + (temp &&& 1)) &&& 0x3F
    some (int_divisor, f_divisor)

/-- `PL011::open` (pl011_uart.rs lines 39-94).  Computes the divisors,
returns `false` early when `int_divisor == 0 || int_divisor == (1 << 16) - 1`
(leaving the state untouched); otherwise programs the hardware registers
(pure side effects, not tracked), resets `buf_head`/`buf_count` to 0 and
falls through to the final expression `false`.  Note the source never
assigns `self.rate`.  `none` models the divide-by-zero failure inside
the divisor computation. -/
def PL011.open_ (s : PL011) (rate : Nat) : Option (Bool × PL011) :=
  match baudDivisors rate with
  | none => none
  | some (int_divisor, _f_divisor) =>
    if int_divisor = 0 ∨ int_divisor = 65535 then
      some (false, s)
    else
      some (false, { s with buf_head := 0, buf_count := 0 })

/-- `PL011::isOpen` (pl011_uart.rs lines 96-99): returns `self.rate == 0`. -/
def PL011.isOpen (s : PL011) : Bool :=
  s.rate == 0

/-- `PL011::close` (pl011_uart.rs lines 102-108): zeroes `rate`,
`buf_head`, `buf_count` and returns `true`. -/
def PL011.close (s : PL011) : Bool × PL011 :=
  (true, { s with rate := 0, buf_head := 0, buf_count := 0 })

/-- `PL011::available` (pl011_uart.rs lines 111-114): `self.buf_count`. -/
def PL011.available (s : PL011) : Nat :=
  s.buf_count

/-- `PL011::read` (pl011_uart.rs lines 129-142).  `c` is the
caller-supplied byte slot; the result is `(return value, final value of
the slot, new state)`.  When `buf_count == 0` it returns 0 and changes
nothing; otherwise it copies `buffer[buf_head]` into the slot, does
`buf_head += 1` (no modulo in the source) and `buf_count -= 1`, returning
1.  `none` models the bounds-check failure of `self.buffer[self.buf_head]`
when `buf_head` is not below the buffer length. -/
def PL011.read (s : PL011) (c : Nat) : Option (Nat × Nat × PL011) :=
  if s.buf_count = 0 then
    some (0, c, s)
  else
    match s.buffer[s.buf_head]? with
    | none => none
    | some b =>
      some (1, b, { s with buf_head := s.buf_head + 1, buf_count := s.buf_count - 1 })

/-- `PL011::receive` (pl011_uart.rs lines 204-215).  When the ring is
full (`buf_count == UART_BUFF_SZ`) the byte is dropped and `false`
returned; otherwise the byte is stored at
`(buf_head + buf_count) % UART_BUFF_SZ` and `buf_count` incremented. -/
def PL011.receive (s : PL011) (c : Nat) : Bool × PL011 :=
  if s.buf_count = UART_BUFF_SZ then
    (false, s)
  else
    (true,
      { s with
        buffer := s.buffer.set ((s.buf_head + s.buf_count) % UART_BUFF_SZ) c
        buf_count := s.buf_count + 1 })

/-- Deliver a list of bytes to `PL011.receive` in order; returns the
final state and the list of return values. -/
def receiveAll (s : PL011) : List Nat → PL011 × List Bool
  | [] => (s, [])
  | c :: cs =>
    let p := s.receive c
    let q := receiveAll p.2 cs
    (q.1, p.1 :: q.2)

/-- Perform `n` calls to `PL011.read` (each with a fresh byte slot
initialised to 0), collecting the bytes of the calls that return 1.
`none` propagates a runtime failure of `read`. -/
def readN : PL011 → Nat → Option (List Nat)
  | _, 0 => some []
  | s, n + 1 =>
    match s.read 0 with
    | none => none
    | some (r, c, s') =>
      match readN s' n with
      | none => none
      | some rest => some (if r = 1 then c :: rest else rest)

/-- The loop of `PL011::writeBuf` (pl011_uart.rs lines 159-168):
`i` starts at 0 and while `i < length` the loop calls `write(buffer[i])`
and increments `i`; the trace of bytes handed to `write` is returned.
`none` models the bounds-check failure of `buffer[i]`. -/
def pl011WriteBufLoop (buffer : List Nat) (length : Nat) : Nat → Option (List Nat)
  | i =>
    if _h : i < length then
      match buffer[i]? with
      | none => none
      | some c =>
        match pl011WriteBufLoop buffer length (i + 1) with
        | none => none
        | some rest => some (c :: rest)
    else
      some []
termination_by i => length - i
decreasing_by simp_wf; omega

/-- `PL011::writeBuf` (pl011_uart.rs lines 159-168): runs the loop from
`i = 0` and then returns `length`.  The result pairs the trace of bytes
handed to `write` with the returned value. -/
def PL011.writeBuf (buffer : List Nat) (length : Nat) : Option (List Nat × Nat) :=
  match pl011WriteBufLoop buffer length 0 with
  | none => none
  | some tr => some (tr, length)

/-- The loop of `UART::writeBuf` (arm926ej_s.rs lines 441-449) and of
`PrimeCell::writeBuf` (primecell_uart.rs lines 127-135): while
`i < length` the body calls `write(buffer[i])` but never increments `i`.
Modelled with an iteration budget `fuel`: `some trace` means the loop
exited normally within `fuel` iterations, `none` means it either ran out
of budget or hit the bounds-check failure of `buffer[i]`. -/
def uartWriteBufLoop (buffer : List Nat) (length : Nat) : Nat → Nat → Option (List Nat)
  | 0, _ => none
  | fuel + 1, i =>
    if i < length then
      match buffer[i]? with
      | none => none
      | some c =>
        match uartWriteBufLoop buffer length fuel i with
        | none => none
        | some rest => some (c :: rest)
    else
      some []

/-- The integer divisor exactly as the spec words it: `floor(CLK / (16 * R))`
truncated to an unsigned 16-bit value, in exact arithmetic (no 32-bit wrap).
Used to compare the source computation against the spec formula. -/
def specIntDivisor (rate : Nat) : Nat :=
  (UART_CLK / (16 * rate)) % U16

/-- `T = floor(8 * (CLK mod (16*R)) / R)` exactly as the spec words it. -/
def specTemp (rate : Nat) : Nat :=
  (8 * (UART_CLK % (16 * rate))) / rate

/-- `F = ((T >> 1) + (T & 1)) & 0x3F` exactly as the spec words it. -/
def specFracDivisor (rate : Nat) : Nat :=
  ((specTemp rate >>> 1) + (specTemp rate &&& 1)) &&& 0x3F

/-- States of a `PL011` device reachable from construction through the
public operations (`open`, `close`, `read`, `receive`; `readBuf` is a
composition of `read` calls and the transmit path never touches this
state). -/
inductive Reachable : PL011 → Prop where
  | init : Reachable PL011.new
  | openStep (s : PL011) (rate : Nat) (b : Bool) (s' : PL011) :
      Reachable s → PL011.open_ s rate = some (b, s') → Reachable s'
  | closeStep (s : PL011) : Reachable s → Reachable (PL011.close s).2
  | readStep (s : PL011) (c r c' : Nat) (s' : PL011) :
      Reachable s → PL011.read s c = some (r, c', s') → Reachable s'
  | receiveStep (s : PL011) (c : Nat) : Reachable s → Reachable (PL011.receive s c).2

/-- A device with `rate` 0, an all-zero ring, head at position `h` and an
empty buffer; `emptyAt 0` is definitionally `PL011.new`. -/
def emptyAt (h : Nat) : PL011 :=
  { rate := 0
    buffer := List.replicate UART_BUFF_SZ 0
    buf_head := h
    buf_count := 0 }

/-! ## Helper lemmas -/

/-- Feeding a batch of bytes that fits in the remaining ring space makes
every `receive` call succeed and grows `buf_count` by the batch length,
leaving `buf_head` unchanged. -/
theorem receiveAll_fills (bs : List Nat) : ∀ s : PL011,
    s.buf_count + bs.length ≤ UART_BUFF_SZ →
    (receiveAll s bs).2 = List.replicate bs.length true ∧
    ((receiveAll s bs).1).buf_count = s.buf_count + bs.length ∧
    ((receiveAll s bs).1).buf_head = s.buf_head := by
  induction bs with
  | nil => intro s _; exact ⟨rfl, by simp [receiveAll], rfl⟩
  | cons c cs ih =>
    intro s h
    have hne : s.buf_count ≠ UART_BUFF_SZ := by
      simp only [List.length_cons] at h; omega
    have hrec : s.receive c =
        (true, { s with
          buffer := s.buffer.set ((s.buf_head + s.buf_count) % UART_BUFF_SZ) c
          buf_count := s.buf_count + 1 }) := by
      simp [PL011.receive, hne]
    have hih := ih { s with
          buffer := s.buffer.set ((s.buf_head + s.buf_count) % UART_BUFF_SZ) c
          buf_count := s.buf_count + 1 }
      (by simp only [List.length_cons] at h; simpa using by omega)
    simp only [receiveAll, hrec, List.length_cons, List.replicate_succ] at hih ⊢
    exact ⟨by simp [hih.1], by have := hih.2.1; omega, hih.2.2⟩

/-- Every reachable state has `rate = 0`: construction starts there,
`open` never assigns `rate`, `close` writes 0, and the buffer operations
do not touch it. -/
theorem reachable_rate_eq_zero (s : PL011) (hs : Reachable s) : s.rate = 0 := by
  induction hs with
  | init => rfl
  | openStep t rate b t' _ heq ih =>
    unfold PL011.open_ at heq
    cases hbd : baudDivisors rate with
    | none => rw [hbd] at heq; cases heq
    | some p =>
      rw [hbd] at heq
      by_cases hz : p.1 = 0 ∨ p.1 = 65535 <;> simp [hz] at heq <;>
        rw [← heq.2] <;> exact ih
  | closeStep t _ _ => rfl
  | readStep t c r c' t' _ heq ih =>
    unfold PL011.read at heq
    by_cases hz : t.buf_count = 0
    · simp [hz] at heq; rw [← heq.2.2]; exact ih
    · simp [hz] at heq
      cases hg : t.buffer[t.buf_head]? with
      | none => rw [hg] at heq; cases heq
      | some b => rw [hg] at heq; simp at heq; rw [← heq.2.2]; exact ih
  | receiveStep t c _ ih =>
    unfold PL011.receive
    by_cases hf : t.buf_count = UART_BUFF_SZ <;> simp [hf] <;> exact ih

/-- An empty device whose head has advanced to any position up to the
capacity is reachable: alternate `receive 0` and `read` from a fresh
device. -/
theorem reachable_emptyAt : ∀ h : Nat, h ≤ UART_BUFF_SZ → Reachable (emptyAt h) := by
  intro h
  induction h with
  | zero => intro _; exact Reachable.init
  | succ k ih =>
    intro hk
    have hklt : k < UART_BUFF_SZ := by omega
    have hstep1 := Reachable.receiveStep (emptyAt k) 0 (ih (by omega))
    have hne : ¬ ((emptyAt k).buf_count = UART_BUFF_SZ) := by
      show ¬ ((0 : Nat) = UART_BUFF_SZ); decide
    have hrec : (PL011.receive (emptyAt k) 0).2 = { emptyAt k with buf_count := 1 } := by
      unfold PL011.receive
      rw [if_neg hne]
      simp [emptyAt, Nat.mod_eq_of_lt hklt]
    rw [hrec] at hstep1
    refine Reachable.readStep _ 0 1 0 (emptyAt (k + 1)) hstep1 ?_
    have h1 : ¬ (({ emptyAt k with buf_count := 1 } : PL011).buf_count = 0) := by
      show ¬ ((1 : Nat) = 0); decide
    unfold PL011.read
    rw [if_neg h1]
    simp [emptyAt, List.getElem?_replicate_of_lt hklt]

/-! ## Claim theorems -/

/-- Claim C1 (code evaluated at the failing input): requesting baud rate
115200 on a fresh device computes integer divisor 13, which is neither 0
nor 65535, yet `open` returns `false` and the device still has
`rate = 0` (Closed) — the success half of the claim never happens, because
the final expression of `PL011::open` is the literal `false` and `rate`
is never assigned. -/
theorem open_115200_returns_false_and_stays_closed :
    PL011.open_ PL011.new 115200 = some (false, PL011.new) ∧
    baudDivisors 115200 = some (13, 1) ∧
    ¬ (13 = 0 ∨ 13 = 65535) ∧
    (PL011.new).rate = 0 ∧
    PL011.open_ PL011.new 115200 ≠ some (true, PL011.new) := by
  refine ⟨by decide, by decide, by decide, rfl, by decide⟩

/-- Claim C2 (code evaluated at the failing input): on a device with
`buf_head = 1023` and one unread byte, `read` returns 1 but advances the
head to 1024 instead of `(1023 + 1) % 1024 = 0`; a further `read` on a
device whose head has reached 1024 indexes `buffer[1024]`, out of bounds
(runtime failure), so the head does not always index a valid slot. -/
theorem read_advances_head_without_wrap :
    PL011.read { emptyAt 1023 with buf_count := 1 } 0 =
      some (1, 0, { emptyAt 1024 with buf_count := 0 }) ∧
    (1023 + 1) % UART_BUFF_SZ = 0 ∧
    PL011.read { emptyAt 1024 with buf_count := 1 } 0 = none := by
  refine ⟨by decide, by decide, by decide⟩

/-- Claim C3 (code evaluated at the failing input): a freshly constructed
device is Closed (`rate = 0`) yet `isOpen` returns `true`, because the
source computes `self.rate == 0` instead of `self.rate != 0`; the same
holds immediately after `close`. -/
theorem isOpen_true_on_closed_device :
    (PL011.new).rate = 0 ∧
    PL011.isOpen PL011.new = true ∧
    PL011.isOpen (PL011.close PL011.new).2 = true := by
  refine ⟨rfl, rfl, rfl⟩

/-- Claim C5 counterexample: the claim asserts
`24_000_000 mod (16*115200) = 0` and a zero fractional divisor, but the
remainder is 38400 and the code computes fractional divisor 1. -/
theorem baud_115200_remainder_not_zero :
    UART_CLK % (16 * 115200) = 38400 ∧
    ¬ (UART_CLK % (16 * 115200) = 0) ∧
    baudDivisors 115200 ≠ some (13, 0) := by
  refine ⟨by decide, by decide, by decide⟩

/-- Claim C5 (amended): for `CLK = 24_000_000` and `R = 115200` the
integer divisor is 13, the remainder `CLK mod (16*R)` is 38400, and the
round-half-up fractional divisor is 1 (`T = floor(8*38400/115200) = 2`,
`F = ((2 >> 1) + (2 & 1)) & 0x3F = 1`). -/
theorem baud_115200_divisors :
    baudDivisors 115200 = some (13, 1) ∧
    UART_CLK % (16 * 115200) = 38400 ∧
    specTemp 115200 = 2 := by
  refine ⟨by decide, by decide, by decide⟩

/-- Claim C6 (code evaluated at the failing input): the loop of
`UART::writeBuf` and `PrimeCell::writeBuf` never increments `i`, so for
the one-byte buffer `[0x41]` with `length = 1` no iteration budget makes
the loop exit — the call never terminates and never returns the length.
(Only the PL011 variant increments `i`.) -/
theorem uartWriteBufLoop_never_exits (fuel : Nat) :
    uartWriteBufLoop [65] 1 fuel 0 = none := by
  induction fuel with
  | zero => rfl
  | succ n ih => simp [uartWriteBufLoop, ih]

/-- Claim C9: `close` returns `true` and zeroes `rate`, `buf_head` and
`buf_count` from any prior state, so `available` is 0 afterwards; running
`close` again on the resulting (already Closed) device again returns
`true` and keeps `available` at 0 — `close` is idempotent. -/
theorem close_resets_and_is_idempotent (s : PL011) :
    PL011.close s = (true, { s with rate := 0, buf_head := 0, buf_count := 0 }) ∧
    PL011.available (PL011.close s).2 = 0 ∧
    ((PL011.close s).2).rate = 0 ∧
    PL011.close ((PL011.close s).2) = (true, (PL011.close s).2) ∧
    PL011.available (PL011.close ((PL011.close s).2)).2 = 0 := by
  refine ⟨rfl, rfl, rfl, rfl, rfl⟩

/-- Claim C4 counterexample: at `R = 2^28` the 32-bit product `16 * R`
wraps to 0, so the divisor computation divides by zero (runtime failure)
instead of producing the divisors the claim prescribes. -/
theorem baudDivisors_overflow :
    1 ≤ 268435456 ∧
    baudDivisors 268435456 = none ∧
    baudDivisors 268435456 ≠ some (specIntDivisor 268435456, specFracDivisor 268435456) := by
  refine ⟨by decide, by decide, by decide⟩

/-- Claim C4 (amended): for every requested baud rate `R ≥ 1` such that
`16 * R` fits in 32 bits, the computation of `PL011::open` yields exactly
the claimed divisors: `I = floor(CLK / (16*R))` truncated to 16 bits and
`F = ((T >> 1) + (T & 1)) & 0x3F` with `T = floor(8 * (CLK mod (16*R)) / R)`. -/
theorem baudDivisors_eq_spec (rate : Nat) (h1 : 1 ≤ rate) (h2 : 16 * rate < U32) :
    baudDivisors rate = some (specIntDivisor rate, specFracDivisor rate) := by
  have hm : (16 * rate) % U32 = 16 * rate := Nat.mod_eq_of_lt h2
  have hne : ¬ (16 * rate = 0) := by omega
  have h8 : 8 * (UART_CLK % (16 * rate)) < U32 := by
    have hle : UART_CLK % (16 * rate) ≤ UART_CLK := Nat.mod_le _ _
    have : (24000000 : Nat) = UART_CLK := rfl
    show 8 * (UART_CLK % (16 * rate)) < 4294967296
    omega
  unfold baudDivisors specIntDivisor specFracDivisor specTemp
  rw [hm]
  rw [if_neg hne]
  rw [Nat.mod_eq_of_lt h8]

/-- Witness for the amended claim C4 at the concrete rate 115200. -/
theorem baudDivisors_eq_spec_witness :
    baudDivisors 115200 = some (specIntDivisor 115200, specFracDivisor 115200) :=
  baudDivisors_eq_spec 115200 (by decide) (by decide)

/-- Claim C7: starting from any empty device, 1024 `receive` calls all
return `true` and leave `available` at the capacity 1024; one further
`receive` returns `false` and leaves the state (count and stored bytes)
completely unchanged.  In general a `receive` on a device whose count is
at most the capacity keeps it at most the capacity, and a `receive` on a
non-full device stores the byte at `(buf_head + buf_count) % 1024`,
increments the count and returns `true`. -/
theorem receive_respects_capacity (s : PL011) (bs : List Nat) (c : Nat)
    (h0 : s.buf_count = 0) (hlen : bs.length = UART_BUFF_SZ) :
    (receiveAll s bs).2 = List.replicate UART_BUFF_SZ true ∧
    PL011.available (receiveAll s bs).1 = UART_BUFF_SZ ∧
    PL011.receive (receiveAll s bs).1 c = (false, (receiveAll s bs).1) ∧
    (∀ (t : PL011) (d : Nat), t.buf_count ≤ UART_BUFF_SZ →
      ((t.receive d).2).buf_count ≤ UART_BUFF_SZ) ∧
    (∀ (t : PL011) (d : Nat), t.buf_count < UART_BUFF_SZ →
      t.receive d = (true,
        { t with
          buffer := t.buffer.set ((t.buf_head + t.buf_count) % UART_BUFF_SZ) d
          buf_count := t.buf_count + 1 })) := by
  have hfill := receiveAll_fills bs s (by omega)
  have hcount : ((receiveAll s bs).1).buf_count = UART_BUFF_SZ := by
    rw [hfill.2.1, h0, hlen]; omega
  refine ⟨by rw [hfill.1, hlen], hcount, ?_, ?_, ?_⟩
  · unfold PL011.receive
    rw [if_pos hcount]
  · intro t d hle
    unfold PL011.receive
    by_cases hf : t.buf_count = UART_BUFF_SZ
    · rw [if_pos hf]; exact hle
    · rw [if_neg hf]; show t.buf_count + 1 ≤ UART_BUFF_SZ; omega
  · intro t d hlt
    unfold PL011.receive
    rw [if_neg (by omega : ¬ (t.buf_count = UART_BUFF_SZ))]

/-- Witness for claim C7: a fresh device filled with 1024 copies of 0x41
and then offered 0x42. -/
theorem receive_respects_capacity_witness :
    (receiveAll PL011.new (List.replicate 1024 65)).2 = List.replicate UART_BUFF_SZ true ∧
    PL011.available (receiveAll PL011.new (List.replicate 1024 65)).1 = UART_BUFF_SZ ∧
    PL011.receive (receiveAll PL011.new (List.replicate 1024 65)).1 66 =
      (false, (receiveAll PL011.new (List.replicate 1024 65)).1) ∧
    (∀ (t : PL011) (d : Nat), t.buf_count ≤ UART_BUFF_SZ →
      ((t.receive d).2).buf_count ≤ UART_BUFF_SZ) ∧
    (∀ (t : PL011) (d : Nat), t.buf_count < UART_BUFF_SZ →
      t.receive d = (true,
        { t with
          buffer := t.buffer.set ((t.buf_head + t.buf_count) % UART_BUFF_SZ) d
          buf_count := t.buf_count + 1 })) :=
  receive_respects_capacity PL011.new (List.replicate 1024 65) 66 rfl (by decide)

/-- Claim C8 (code evaluated at the failing input): an empty device whose
head sits at 1022 is reachable (1022 receive/read pairs from a fresh
device); receiving 0x41, 0x42, 0x43 there succeeds, but reading 3 bytes
fails — the third `read` indexes `buffer[1024]`, out of bounds, instead
of delivering 0x43 — so reads do not return the received bytes in order
on every empty device. -/
theorem fifo_order_fails_near_wrap :
    Reachable (emptyAt 1022) ∧
    (receiveAll (emptyAt 1022) [65, 66, 67]).2 = [true, true, true] ∧
    readN (receiveAll (emptyAt 1022) [65, 66, 67]).1 3 = none := by
  refine ⟨reachable_emptyAt 1022 (by decide), by decide, by decide⟩

/-- Claim C10: in every reachable state the `rate` field is still 0 — no
public operation ever assigns it a nonzero value (`open` never writes it,
`close` writes 0) — and consequently `isOpen` returns `true` in every
reachable state, the same value as in every other reachable state. -/
theorem rate_zero_in_all_reachable_states (s : PL011) (hs : Reachable s) :
    s.rate = 0 ∧
    PL011.isOpen s = true ∧
    (∀ t : PL011, Reachable t → PL011.isOpen t = PL011.isOpen s) ∧
    (∀ (t : PL011) (r : Nat) (b : Bool) (t' : PL011),
      PL011.open_ t r = some (b, t') → t'.rate = t.rate) ∧
    (∀ t : PL011, ((PL011.close t).2).rate = 0) := by
  have hrate := reachable_rate_eq_zero s hs
  have hopen : ∀ (t : PL011) (r : Nat) (b : Bool) (t' : PL011),
      PL011.open_ t r = some (b, t') → t'.rate = t.rate := by
    intro t r b t' heq
    unfold PL011.open_ at heq
    cases hbd : baudDivisors r with
    | none => rw [hbd] at heq; cases heq
    | some p =>
      rw [hbd] at heq
      by_cases hz : p.1 = 0 ∨ p.1 = 65535 <;> simp [hz] at heq <;> rw [← heq.2]
  refine ⟨hrate, ?_, ?_, hopen, fun t => rfl⟩
  · show (s.rate == 0) = true
    rw [hrate]; rfl
  · intro t ht
    show (t.rate == 0) = (s.rate == 0)
    rw [hrate, reachable_rate_eq_zero t ht]

/-- Witness for claim C10 at the freshly constructed device. -/
theorem rate_zero_in_all_reachable_states_witness :
    (PL011.new).rate = 0 ∧
    PL011.isOpen PL011.new = true ∧
    (∀ t : PL011, Reachable t → PL011.isOpen t = PL011.isOpen PL011.new) ∧
    (∀ (t : PL011) (r : Nat) (b : Bool) (t' : PL011),
      PL011.open_ t r = some (b, t') → t'.rate = t.rate) ∧
    (∀ t : PL011, ((PL011.close t).2).rate = 0) :=
  rate_zero_in_all_reachable_states PL011.new Reachable.init

end IronKernel
